import Mathlib

/-!
Verification of the gojieba cgo bridge (`src/jieba.go`): a shallow embedding of
the resource-handle lifecycle, the shared-singleton accessor, the freed-flag
guards and the native result converters, together with theorems settling the
frozen claims about the module.

The native segmentation engine (cppjieba) is an external collaborator: its
query functions are modelled as explicit function parameters, and every
operation additionally returns the list of native calls it performed, so that
statements such as "no native call occurs on a freed handle" are expressible.
Go panics are modelled as `Except.error` results carrying a `GoPanic` value.
-/

/-- Tokenization mode selector, mirroring `type TokenizeMode int` with the two
constants `DefaultMode` and `SearchMode`. -/
inductive TokenizeMode where
  | DefaultMode : TokenizeMode
  | SearchMode : TokenizeMode
deriving Repr, DecidableEq

/-- Positioned token, mirroring `type Word struct { Str string; Start int; End int }`.
Go `int` is modelled as `Int`. -/
structure Word where
  Str : String
  Start : Int
  End : Int
deriving Repr, DecidableEq

/-- Handle state, mirroring `type Jieba struct { jieba C.Jieba; freed int32 }`.
The opaque native reference `C.Jieba` is modelled as `Option Nat`: `some r` for a
live native pointer, `none` for the nil pointer written by `Free`. The `freed`
int32 (only ever 0 or 1, accessed atomically) is modelled as `Bool`. -/
structure Jieba where
  jieba : Option Nat
  freed : Bool
deriving Repr, DecidableEq

/-- A Go panic: either `panic(msg)` with a message, or the runtime fault raised by
dereferencing a nil pointer. -/
inductive GoPanic where
  | panicMsg : String → GoPanic
  | nilPointerDereference : GoPanic
deriving Repr, DecidableEq

/-- One call across the cgo boundary into the native engine. Operations return the
list of such calls they performed, so that guard-ordering claims ("panics before
attempting any native call") can be stated about the embedding. -/
inductive NativeCall where
  | newJieba (dictpaths : List String)
  | freeJieba (ref : Option Nat)
  | cut (ref : Option Nat) (s : String) (hmm : Bool)
  | cutAll (ref : Option Nat) (s : String)
  | cutForSearch (ref : Option Nat) (s : String) (hmm : Bool)
  | tag (ref : Option Nat) (s : String)
  | tokenize (ref : Option Nat) (s : String) (mode : TokenizeMode) (hmm : Bool)
  | extract (ref : Option Nat) (s : String) (topk : Int)
  | extractWithWeight (ref : Option Nat) (s : String) (topk : Int)
  | addWord (ref : Option Nat) (s : String)
  | addWordEx (ref : Option Nat) (s : String) (freq : Int) (tag : String)
  | removeWord (ref : Option Nat) (s : String)
deriving Repr, DecidableEq

/-- The five built-in default dictionary locations (main dict, HMM dict, user
dict, IDF weights, stop words), standing for the repository's bundled files. -/
def defaultDictPaths : List String :=
  ["dict/jieba.dict.utf8", "dict/hmm_model.utf8", "dict/user.dict.utf8",
   "dict/idf.utf8", "dict/stop_words.utf8"]

/-- Modelled from the spec: `getDictPaths` is called by `NewJieba` but its
definition is not under `src/`. Per the spec's path-resolution contract it
resolves each of the five required dictionary files to the caller-supplied
override path when one is given at that position, else to the built-in default
location. -/
def getDictPaths (paths : List String) : List String :=
  (List.range 5).map (fun i => paths.getD i (defaultDictPaths.getD i ""))

/-- `NewJieba` from `src/jieba.go`: resolves the five dictionary paths, checks
with `os.Stat` that each exists — panicking at the first missing path with a
message naming it, before any native call — and only then invokes the native
initializer `C.NewJieba`, wrapping the fresh native reference with the freed
flag clear. The filesystem is modelled as the list `fs` of existing files and
the fresh native reference as the caller-chosen `nextRef`. -/
def NewJieba (fs : List String) (nextRef : Nat) (paths : List String) :
    Except GoPanic Jieba × List NativeCall :=
  match (getDictPaths paths).find? (fun p => !(fs.contains p)) with
  | some p => (.error (.panicMsg ("Dictionary file does not exist: " ++ p)), [])
  | none => (.ok { jieba := some nextRef, freed := false },
             [NativeCall.newJieba (getDictPaths paths)])

/-- The package-level singleton state: `sharedInstanceOnce` (a `sync.Once`,
whose done flag is set when `Do` returns, even when the function it ran
panicked) and the `sharedInstance` pointer (`none` models a nil pointer). -/
structure SharedState where
  onceDone : Bool
  sharedInstance : Option Jieba
deriving Repr, DecidableEq

/-- `GetSharedInstance` from `src/jieba.go`: `sharedInstanceOnce.Do` runs
`NewJieba` on the first call only (and Go's `sync.Once` marks itself done even
when the function panics); afterwards, under `sharedInstanceLock.RLock`, the
shared instance's `freed` flag is loaded and a set flag panics with
"Shared Jieba instance has been freed"; otherwise the shared handle is
returned. Reading `sharedInstance.freed` when `sharedInstance` is nil is a
nil-pointer dereference. -/
def GetSharedInstance (fs : List String) (nextRef : Nat) (paths : List String)
    (st : SharedState) : Except GoPanic Jieba × SharedState × List NativeCall :=
  if st.onceDone then
    match st.sharedInstance with
    | none => (.error GoPanic.nilPointerDereference, st, [])
    | some inst =>
      if inst.freed then
        (.error (.panicMsg "Shared Jieba instance has been freed"), st, [])
      else (.ok inst, st, [])
  else
    match NewJieba fs nextRef paths with
    | (.error p, calls) =>
      (.error p, { onceDone := true, sharedInstance := none }, calls)
    | (.ok j, calls) =>
      let st2 : SharedState := { onceDone := true, sharedInstance := some j }
      if j.freed then
        (.error (.panicMsg "Shared Jieba instance has been freed"), st2, calls)
      else (.ok j, st2, calls)

/-- `Free` from `src/jieba.go`: an atomic compare-and-swap of `freed` from 0 to
1; only the winning call invokes `C.FreeJieba` on the (still original) native
reference and then clears it to nil. Losing calls change nothing and make no
native call. -/
def Free (x : Jieba) : Jieba × List NativeCall :=
  if x.freed = false then
    ({ jieba := none, freed := true }, [NativeCall.freeJieba x.jieba])
  else (x, [])

/-- `n` successive calls of `Free` on the same handle, concatenating the native
calls each performs. -/
def freeN : Nat → Jieba → Jieba × List NativeCall
  | 0, x => (x, [])
  | n + 1, x =>
    let r1 := Free x
    let r2 := freeN n r1.1
    (r2.1, r1.2 ++ r2.2)

/-- `checkFreed` from `src/jieba.go`: atomically loads the `freed` flag and
panics with "Jieba instance has been freed" when it is set. -/
def checkFreed (x : Jieba) : Except GoPanic Unit :=
  if x.freed then .error (.panicMsg "Jieba instance has been freed") else .ok ()

/-- Modelled from the spec: `cstrings` (the string-array converter) is called by
`Cut`, `CutAll`, `CutForSearch`, `Tag` and `Extract` but is not under `src/`.
Per the spec it walks a native array of native strings until a null sentinel,
copying each into a host string and preserving order. The native array is
modelled as a list of `Option String`, `none` being the null sentinel. -/
def cstrings : List (Option String) → List String
  | [] => []
  | none :: _ => []
  | some s :: rest => s :: cstrings rest

/-- `Cut` from `src/jieba.go`: first `checkFreed` (panicking on a freed handle
before marshalling or any native call), then the native `C.Cut` on the handle's
reference, converted through `cstrings`. The engine is an explicit parameter
returning the native (null-terminated) string array. -/
def Cut (engine : Option Nat → String → Bool → List (Option String))
    (x : Jieba) (s : String) (hmm : Bool) :
    Except GoPanic (List String) × List NativeCall :=
  match checkFreed x with
  | .error e => (.error e, [])
  | .ok _ => (.ok (cstrings (engine x.jieba s hmm)), [NativeCall.cut x.jieba s hmm])

/-- `CutAll` from `src/jieba.go`: `checkFreed`, then the native `C.CutAll`,
converted through `cstrings`. -/
def CutAll (engine : Option Nat → String → List (Option String))
    (x : Jieba) (s : String) :
    Except GoPanic (List String) × List NativeCall :=
  match checkFreed x with
  | .error e => (.error e, [])
  | .ok _ => (.ok (cstrings (engine x.jieba s)), [NativeCall.cutAll x.jieba s])

/-- `CutForSearch` from `src/jieba.go`: `checkFreed`, then the native
`C.CutForSearch`, converted through `cstrings`. -/
def CutForSearch (engine : Option Nat → String → Bool → List (Option String))
    (x : Jieba) (s : String) (hmm : Bool) :
    Except GoPanic (List String) × List NativeCall :=
  match checkFreed x with
  | .error e => (.error e, [])
  | .ok _ =>
    (.ok (cstrings (engine x.jieba s hmm)), [NativeCall.cutForSearch x.jieba s hmm])

/-- `Tag` from `src/jieba.go`: `checkFreed`, then the native `C.Tag`, converted
through `cstrings`. -/
def Tag (engine : Option Nat → String → List (Option String))
    (x : Jieba) (s : String) :
    Except GoPanic (List String) × List NativeCall :=
  match checkFreed x with
  | .error e => (.error e, [])
  | .ok _ => (.ok (cstrings (engine x.jieba s)), [NativeCall.tag x.jieba s])

/-- `AddWord` from `src/jieba.go`: marshals the word and invokes the native
`C.AddWord` on the handle's reference unconditionally — the source performs no
`checkFreed`, so the call proceeds for every handle state. -/
def AddWord (x : Jieba) (s : String) : Except GoPanic Unit × List NativeCall :=
  (.ok (), [NativeCall.addWord x.jieba s])

/-- `AddWordEx` from `src/jieba.go`: invokes the native `C.AddWordEx`
unconditionally; no `checkFreed` appears in the source. -/
def AddWordEx (x : Jieba) (s : String) (freq : Int) (tag : String) :
    Except GoPanic Unit × List NativeCall :=
  (.ok (), [NativeCall.addWordEx x.jieba s freq tag])

/-- `RemoveWord` from `src/jieba.go`: invokes the native `C.RemoveWord`
unconditionally; no `checkFreed` appears in the source. -/
def RemoveWord (x : Jieba) (s : String) : Except GoPanic Unit × List NativeCall :=
  (.ok (), [NativeCall.removeWord x.jieba s])

/-- A raw positioned-token record as handed back by the native `C.Tokenize`:
per the spec each record supplies the substring together with its start and
end byte offsets as produced by the engine. -/
structure CWord where
  word : String
  start : Int
  stop : Int
deriving Repr, DecidableEq

/-- Modelled from the spec: `convertWords` (the positioned-token converter) is
called by `Tokenize` but is not under `src/`. Per the spec it takes the
original input and the native array of raw token records and produces the
`Word` sequence preserving engine-reported order and offsets. -/
def convertWords (s : String) (recs : List CWord) : List Word :=
  recs.map (fun r => { Str := r.word, Start := r.start, End := r.stop })

/-- `Tokenize` from `src/jieba.go`: marshals the text, invokes the native
`C.Tokenize` with the mode and HMM flag, and converts the result through
`convertWords`. The source performs no `checkFreed` here. -/
def Tokenize (engine : Option Nat → String → TokenizeMode → Bool → List CWord)
    (x : Jieba) (s : String) (mode : TokenizeMode) (hmm : Bool) :
    Except GoPanic (List Word) × List NativeCall :=
  (.ok (convertWords s (engine x.jieba s mode hmm)),
   [NativeCall.tokenize x.jieba s mode hmm])

/-- `Extract` from `src/jieba.go`: marshals the text, invokes the native
`C.Extract` with `topk`, converts through `cstrings`. The source performs no
`checkFreed` here. -/
def Extract (engine : Option Nat → String → Int → List (Option String))
    (x : Jieba) (s : String) (topk : Int) :
    Except GoPanic (List String) × List NativeCall :=
  (.ok (cstrings (engine x.jieba s topk)), [NativeCall.extract x.jieba s topk])

/-- A fixed-size weighted record of the native `CWordWeight` array:
`word : const char*` modelled as `Option String` (`none` is the null sentinel)
and `weight : double` modelled as `Float`. -/
structure CWordWeight where
  word : Option String
  weight : Float
deriving Repr

/-- `WordWeight` from `src/jieba.go`: a host `(word, weight)` pair. -/
structure WordWeight where
  Word : String
  Weight : Float
deriving Repr

/-- `cwordweights` from `src/jieba.go`: walks the native record array while the
current record's `word` field is non-null, appending a `WordWeight` built from
`C.GoString(word)` and the record's weight, and stops at the first record whose
`word` is null. The pointer walk over the sentinel-terminated array is
modelled as structural recursion over the record list. -/
def cwordweights : List CWordWeight → List WordWeight
  | [] => []
  | r :: rest =>
    match r.word with
    | none => []
    | some w => { Word := w, Weight := r.weight } :: cwordweights rest

/-- `ExtractWithWeight` from `src/jieba.go`: marshals the text, invokes the
native `C.ExtractWithWeight` with `topk`, converts through `cwordweights`. The
source performs no `checkFreed` here. -/
def ExtractWithWeight (engine : Option Nat → String → Int → List CWordWeight)
    (x : Jieba) (s : String) (topk : Int) :
    Except GoPanic (List WordWeight) × List NativeCall :=
  (.ok (cwordweights (engine x.jieba s topk)),
   [NativeCall.extractWithWeight x.jieba s topk])

/-- Well-formedness of an engine-reported token record with respect to the
input text, per the engine contract the spec states for positioned tokens:
offsets are byte offsets into the UTF-8 encoded input with
`0 ≤ start < stop ≤ utf8-length`. -/
def ValidRec (s : String) (r : CWord) : Prop :=
  0 ≤ r.start ∧ r.start < r.stop ∧ r.stop ≤ (s.utf8ByteSize : Int)

instance (s : String) (r : CWord) : Decidable (ValidRec s r) :=
  inferInstanceAs
    (Decidable (0 ≤ r.start ∧ r.start < r.stop ∧ r.stop ≤ (s.utf8ByteSize : Int)))

/-! ## Helper lemmas -/

/-- A handle whose freed flag is set is a fixed point of `Free`: any number of
further `Free` calls changes nothing and performs no native call. -/
lemma freeN_of_freed (n : Nat) (x : Jieba) (h : x.freed = true) :
    freeN n x = (x, []) := by
  induction n with
  | zero => rfl
  | succ n ih => simp [freeN, Free, h, ih]

/-- `cwordweights` computed in closed form: it returns exactly the records
preceding the first null-word record, in order. -/
lemma cwordweights_eq_takeWhile (l : List CWordWeight) :
    cwordweights l = (l.takeWhile (fun r => r.word.isSome)).map
      (fun r => { Word := r.word.getD "", Weight := r.weight }) := by
  induction l with
  | nil => rfl
  | cons r rest ih =>
    cases hw : r.word with
    | none => simp [cwordweights, List.takeWhile_cons, hw]
    | some w => simp [cwordweights, List.takeWhile_cons, hw, ih]

/-! ## Theorems for the claims -/

/-- Claim C2: `Free` is a one-shot idempotent operation — starting from a live
handle, `n ≥ 1` calls perform exactly one native release (of the handle's
original reference), leave the handle with the flag set and the reference
cleared, and any number of further calls is a no-op. -/
theorem free_one_shot (x : Jieba) (n : Nat) (hx : x.freed = false) (hn : 1 ≤ n) :
    (freeN n x).2 = [NativeCall.freeJieba x.jieba] ∧
    (freeN n x).1 = { jieba := none, freed := true } ∧
    ∀ k, freeN k (freeN n x).1 = ((freeN n x).1, []) := by
  obtain ⟨m, rfl⟩ : ∃ m, n = m + 1 := ⟨n - 1, by omega⟩
  have h1 : Free x = ({ jieba := none, freed := true }, [NativeCall.freeJieba x.jieba]) := by
    simp [Free, hx]
  have h2 : freeN m { jieba := none, freed := true } =
      ({ jieba := none, freed := true }, []) := freeN_of_freed m _ rfl
  refine ⟨?_, ?_, ?_⟩ <;> simp [freeN, h1, h2, freeN_of_freed]

/-- Claim C2 witness: three calls on a live handle with native reference 7
perform exactly one release and leave the freed state. -/
theorem free_one_shot_witness :
    (freeN 3 { jieba := some 7, freed := false }).2 = [NativeCall.freeJieba (some 7)] ∧
    (freeN 3 { jieba := some 7, freed := false }).1 = { jieba := none, freed := true } :=
  ⟨(free_one_shot { jieba := some 7, freed := false } 3 rfl (by decide)).1,
   (free_one_shot { jieba := some 7, freed := false } 3 rfl (by decide)).2.1⟩

/-- Claim C9: the first successful `Free` clears the native reference to nil
and sets the freed flag — and changes nothing else, the handle having no other
fields — so `checkFreed` on the resulting handle deterministically reports the
freed state, and a further `Free` is a no-op. -/
theorem free_clears_handle_state (x : Jieba) (hx : x.freed = false) :
    Free x = ({ jieba := none, freed := true }, [NativeCall.freeJieba x.jieba]) ∧
    (Free x).1.jieba = none ∧
    (Free x).1.freed = true ∧
    checkFreed (Free x).1 = .error (.panicMsg "Jieba instance has been freed") ∧
    Free (Free x).1 = ((Free x).1, []) := by
  simp [Free, checkFreed, hx]

/-- Claim C9 witness: freeing a live handle with native reference 3. -/
theorem free_clears_handle_state_witness :
    Free { jieba := some 3, freed := false } =
      ({ jieba := none, freed := true }, [NativeCall.freeJieba (some 3)]) :=
  (free_clears_handle_state { jieba := some 3, freed := false } rfl).1

/-- Claim C6: `AddWord`, `AddWordEx` and `RemoveWord` perform the native
dictionary mutation for every handle state — freed or not — with no freed-flag
guard: the native call on the handle's (possibly nil) reference always occurs
and the operation never panics. -/
theorem dict_mutations_skip_freed_guard (x : Jieba) (s tg : String) (freq : Int) :
    AddWord x s = (.ok (), [NativeCall.addWord x.jieba s]) ∧
    AddWordEx x s freq tg = (.ok (), [NativeCall.addWordEx x.jieba s freq tg]) ∧
    RemoveWord x s = (.ok (), [NativeCall.removeWord x.jieba s]) :=
  ⟨rfl, rfl, rfl⟩

/-- Claim C7: `cwordweights` produces the `(word, weight)` pairs of exactly the
records preceding the first null-word record, in array order, and an array
whose first record has a null word yields the empty sequence, not an error. -/
theorem cwordweights_stops_at_first_null (l : List CWordWeight)
    (hsentinel : ∃ r ∈ l, r.word = none) :
    cwordweights l = (l.takeWhile (fun r => r.word.isSome)).map
      (fun r => { Word := r.word.getD "", Weight := r.weight }) ∧
    ∀ w rest, cwordweights ({ word := none, weight := w } :: rest) = [] :=
  ⟨cwordweights_eq_takeWhile l, fun _ _ => rfl⟩

/-- Claim C7 witness: a three-record array whose second record is the null
sentinel converts to the single pair before the sentinel. -/
theorem cwordweights_stops_at_first_null_witness :
    cwordweights [{ word := some "a", weight := 1.5 }, { word := none, weight := 2.5 },
        { word := some "b", weight := 3.5 }] =
      (([{ word := some "a", weight := (1.5 : Float) }, { word := none, weight := 2.5 },
          { word := some "b", weight := 3.5 }] : List CWordWeight).takeWhile
        (fun r => r.word.isSome)).map
        (fun r => { Word := r.word.getD "", Weight := r.weight }) :=
  (cwordweights_stops_at_first_null _
    ⟨{ word := none, weight := 2.5 }, List.Mem.tail _ (List.Mem.head _), rfl⟩).1

/-- Claim C1 counterexample: on a freed handle, `Tokenize` does not panic — it
performs the native call and returns an ordinary result, refuting the claim
that every query operation (including `Tokenize`, `Extract` and
`ExtractWithWeight`) checks the freed flag before any native call. -/
theorem tokenize_on_freed_counterexample :
    (Tokenize (fun _ _ _ _ => []) { jieba := none, freed := true } "x"
        TokenizeMode.DefaultMode false).1 = .ok [] ∧
    (Tokenize (fun _ _ _ _ => []) { jieba := none, freed := true } "x"
        TokenizeMode.DefaultMode false).2 =
      [NativeCall.tokenize none "x" TokenizeMode.DefaultMode false] :=
  ⟨rfl, rfl⟩

/-- Claim C1 (amended): only `Cut`, `CutAll`, `CutForSearch` and `Tag` guard
with `checkFreed`, panicking on a freed handle before any native call;
`Tokenize`, `Extract` and `ExtractWithWeight` perform no freed check and
proceed to the native call even on a freed handle. -/
theorem freed_guard_coverage (x : Jieba) (hx : x.freed = true)
    (e1 : Option Nat → String → Bool → List (Option String))
    (e2 : Option Nat → String → List (Option String))
    (e3 : Option Nat → String → Bool → List (Option String))
    (e4 : Option Nat → String → List (Option String))
    (e5 : Option Nat → String → TokenizeMode → Bool → List CWord)
    (e6 : Option Nat → String → Int → List (Option String))
    (e7 : Option Nat → String → Int → List CWordWeight)
    (s : String) (hmm : Bool) (mode : TokenizeMode) (k : Int) :
    Cut e1 x s hmm = (.error (.panicMsg "Jieba instance has been freed"), []) ∧
    CutAll e2 x s = (.error (.panicMsg "Jieba instance has been freed"), []) ∧
    CutForSearch e3 x s hmm = (.error (.panicMsg "Jieba instance has been freed"), []) ∧
    Tag e4 x s = (.error (.panicMsg "Jieba instance has been freed"), []) ∧
    (Tokenize e5 x s mode hmm).2 = [NativeCall.tokenize x.jieba s mode hmm] ∧
    (Extract e6 x s k).2 = [NativeCall.extract x.jieba s k] ∧
    (ExtractWithWeight e7 x s k).2 = [NativeCall.extractWithWeight x.jieba s k] := by
  refine ⟨?_, ?_, ?_, ?_, rfl, rfl, rfl⟩ <;>
    simp [Cut, CutAll, CutForSearch, Tag, checkFreed, hx]

/-- Claim C1 witness: the guard behaviour at a concrete freed handle and
concrete engines. -/
theorem freed_guard_coverage_witness :
    Cut (fun _ _ _ => []) { jieba := none, freed := true } "x" true =
      (.error (.panicMsg "Jieba instance has been freed"), []) ∧
    Tag (fun _ _ => []) { jieba := none, freed := true } "x" =
      (.error (.panicMsg "Jieba instance has been freed"), []) ∧
    (Extract (fun _ _ _ => []) { jieba := none, freed := true } "x" 5).2 =
      [NativeCall.extract none "x" 5] := by
  have h := freed_guard_coverage { jieba := none, freed := true } rfl
    (fun _ _ _ => []) (fun _ _ => []) (fun _ _ _ => []) (fun _ _ => [])
    (fun _ _ _ _ => []) (fun _ _ _ => []) (fun _ _ _ => [])
    "x" true TokenizeMode.DefaultMode 5
  exact ⟨h.1, h.2.2.2.1, h.2.2.2.2.2.1⟩

/-- Claim C4: `NewJieba` resolves exactly five dictionary paths and validates
their existence before the native initializer runs — when some resolved path is
missing it panics with a message naming the first missing path and performs no
native call, and only when all five exist does exactly one native `C.NewJieba`
call occur. -/
theorem newJieba_validates_before_init (fs : List String) (r : Nat) (paths : List String) :
    (getDictPaths paths).length = 5 ∧
    (∀ p, (getDictPaths paths).find? (fun q => !(fs.contains q)) = some p →
      NewJieba fs r paths =
        (.error (.panicMsg ("Dictionary file does not exist: " ++ p)), [])) ∧
    ((getDictPaths paths).find? (fun q => !(fs.contains q)) = none →
      NewJieba fs r paths = (.ok { jieba := some r, freed := false },
        [NativeCall.newJieba (getDictPaths paths)])) := by
  refine ⟨by simp [getDictPaths], fun p hp => ?_, fun hnone => ?_⟩ <;>
    simp only [NewJieba] <;> [rw [hp]; rw [hnone]]

/-- Claim C4 witness: with only the default main dictionary present, the
resolved HMM dictionary path is the first missing one, `NewJieba` panics naming
it and performs no native call. -/
theorem newJieba_validates_before_init_witness :
    NewJieba ["dict/jieba.dict.utf8"] 0 [] =
      (.error (.panicMsg ("Dictionary file does not exist: " ++ "dict/hmm_model.utf8")), []) :=
  (newJieba_validates_before_init ["dict/jieba.dict.utf8"] 0 []).2.1
    "dict/hmm_model.utf8" (by decide)

/-- Claim C5: every `GetSharedInstance` call after construction checks the
shared instance's freed flag — if it is set the call panics with
"Shared Jieba instance has been freed", otherwise it returns the shared handle;
either way the shared state is unchanged and no native call occurs. -/
theorem getShared_freed_guard (fs : List String) (r : Nat) (paths : List String)
    (inst : Jieba) :
    (inst.freed = true →
      GetSharedInstance fs r paths { onceDone := true, sharedInstance := some inst } =
        (.error (.panicMsg "Shared Jieba instance has been freed"),
         { onceDone := true, sharedInstance := some inst }, [])) ∧
    (inst.freed = false →
      GetSharedInstance fs r paths { onceDone := true, sharedInstance := some inst } =
        (.ok inst, { onceDone := true, sharedInstance := some inst }, [])) := by
  constructor <;> intro h <;> simp [GetSharedInstance, h]

/-- Claim C5 witness: the accessor at a concrete freed shared instance panics,
and at a concrete live shared instance returns it. -/
theorem getShared_freed_guard_witness :
    GetSharedInstance [] 0 []
        { onceDone := true, sharedInstance := some { jieba := none, freed := true } } =
      (.error (.panicMsg "Shared Jieba instance has been freed"),
       { onceDone := true, sharedInstance := some { jieba := none, freed := true } }, []) ∧
    GetSharedInstance [] 0 []
        { onceDone := true, sharedInstance := some { jieba := some 1, freed := false } } =
      (.ok { jieba := some 1, freed := false },
       { onceDone := true, sharedInstance := some { jieba := some 1, freed := false } }, []) :=
  ⟨(getShared_freed_guard [] 0 [] { jieba := none, freed := true }).1 rfl,
   (getShared_freed_guard [] 0 [] { jieba := some 1, freed := false }).2 rfl⟩


/-- `NewJieba` either panics on the first missing resolved path with no native
call, or succeeds with a fresh live handle and exactly one native construction
call. -/
lemma newJieba_cases (fs : List String) (r : Nat) (paths : List String) :
    (∃ p, NewJieba fs r paths =
      (.error (.panicMsg ("Dictionary file does not exist: " ++ p)), [])) ∨
    NewJieba fs r paths = (.ok { jieba := some r, freed := false },
      [NativeCall.newJieba (getDictPaths paths)]) := by
  unfold NewJieba
  cases (getDictPaths paths).find? (fun p => !(fs.contains p)) with
  | some p => exact Or.inl ⟨p, rfl⟩
  | none => exact Or.inr rfl

/-- A first `GetSharedInstance` call whose construction panics: the panic
propagates, the once-guard is marked done, the shared instance stays nil. -/
lemma getShared_first_error (fs : List String) (r : Nat) (paths : List String)
    (g : GoPanic) (calls : List NativeCall)
    (hN : NewJieba fs r paths = (.error g, calls)) :
    GetSharedInstance fs r paths { onceDone := false, sharedInstance := none } =
      (.error g, { onceDone := true, sharedInstance := none }, calls) := by
  simp [GetSharedInstance, hN]

/-- A first `GetSharedInstance` call whose construction succeeds with a live
handle: it stores the handle, marks the guard done and returns the handle. -/
lemma getShared_first_ok (fs : List String) (r : Nat) (paths : List String)
    (j : Jieba) (calls : List NativeCall)
    (hN : NewJieba fs r paths = (.ok j, calls)) (hf : j.freed = false) :
    GetSharedInstance fs r paths { onceDone := false, sharedInstance := none } =
      (.ok j, { onceDone := true, sharedInstance := some j }, calls) := by
  simp [GetSharedInstance, hN, hf]

/-- Claim C3: from the initial singleton state, a first `GetSharedInstance`
call that succeeds performs exactly one native construction (fixing the path
set resolved from its arguments) and stores the handle it returns; every
subsequent call — with any filesystem, reference or path arguments — performs
no construction, ignores its arguments and returns the very same handle with
the state unchanged, so later calls are fixed points and at most one shared
handle is ever constructed. -/
theorem getShared_constructs_once (fs : List String) (r : Nat) (paths1 : List String)
    (j : Jieba)
    (h : (GetSharedInstance fs r paths1
        { onceDone := false, sharedInstance := none }).1 = .ok j) :
    (GetSharedInstance fs r paths1 { onceDone := false, sharedInstance := none }).2 =
      ({ onceDone := true, sharedInstance := some j },
       [NativeCall.newJieba (getDictPaths paths1)]) ∧
    ∀ fs2 r2 paths2,
      GetSharedInstance fs2 r2 paths2 { onceDone := true, sharedInstance := some j } =
        (.ok j, { onceDone := true, sharedInstance := some j }, []) := by
  rcases newJieba_cases fs r paths1 with ⟨p, hN⟩ | hN
  · rw [getShared_first_error fs r paths1 _ _ hN] at h
    exact absurd h (by simp)
  · have hG := getShared_first_ok fs r paths1 _ _ hN rfl
    rw [hG] at h
    have hj : ({ jieba := some r, freed := false } : Jieba) = j := by
      simpa using h
    subst hj
    exact ⟨by rw [hG], fun fs2 r2 paths2 => rfl⟩

/-- Claim C3 witness: with all five default dictionary files present and no
overrides, the first call constructs once, and a later call with different
arguments returns the same handle without constructing. -/
theorem getShared_constructs_once_witness :
    (GetSharedInstance defaultDictPaths 0 []
        { onceDone := false, sharedInstance := none }).2 =
      ({ onceDone := true, sharedInstance := some { jieba := some 0, freed := false } },
       [NativeCall.newJieba (getDictPaths [])]) ∧
    GetSharedInstance [] 9 ["other"]
        { onceDone := true,
          sharedInstance := some { jieba := some 0, freed := false } } =
      (.ok { jieba := some 0, freed := false },
       { onceDone := true,
         sharedInstance := some { jieba := some 0, freed := false } }, []) := by
  have h := getShared_constructs_once defaultDictPaths 0 []
    { jieba := some 0, freed := false } rfl
  exact ⟨h.1, h.2 [] 9 ["other"]⟩

/-- Claim C10: when the construction inside the first `GetSharedInstance` call
panics (necessarily with a missing-dictionary message), the once-guard is
nevertheless marked done while the shared instance stays nil, and every
subsequent call — with any arguments, even ones that would construct
successfully — skips construction and fails with a nil-pointer dereference
rather than retrying construction or reporting the original configuration
error. -/
theorem getShared_poisoned_after_panic (fs : List String) (r : Nat)
    (paths1 : List String) (g : GoPanic)
    (h : (GetSharedInstance fs r paths1
        { onceDone := false, sharedInstance := none }).1 = .error g) :
    (GetSharedInstance fs r paths1 { onceDone := false, sharedInstance := none }).2 =
      ({ onceDone := true, sharedInstance := none }, []) ∧
    (∃ p, g = .panicMsg ("Dictionary file does not exist: " ++ p)) ∧
    ∀ fs2 r2 paths2,
      GetSharedInstance fs2 r2 paths2 { onceDone := true, sharedInstance := none } =
        (.error GoPanic.nilPointerDereference,
         { onceDone := true, sharedInstance := none }, []) := by
  rcases newJieba_cases fs r paths1 with ⟨p, hN⟩ | hN
  · have hG := getShared_first_error fs r paths1 _ _ hN
    rw [hG] at h
    have hg : g = .panicMsg ("Dictionary file does not exist: " ++ p) := by
      have := h
      simp at this
      exact this.symm
    exact ⟨by rw [hG], ⟨p, hg⟩, fun fs2 r2 paths2 => rfl⟩
  · have hG := getShared_first_ok fs r paths1 _ _ hN rfl
    rw [hG] at h
    exact absurd h (by simp)

/-- Claim C10 witness: with an empty filesystem the first call panics on the
main dictionary path, and a later call with all files present still fails with
a nil-pointer dereference without constructing. -/
theorem getShared_poisoned_after_panic_witness :
    (GetSharedInstance [] 0 [] { onceDone := false, sharedInstance := none }).2 =
      ({ onceDone := true, sharedInstance := none }, []) ∧
    GetSharedInstance defaultDictPaths 0 []
        { onceDone := true, sharedInstance := none } =
      (.error GoPanic.nilPointerDereference,
       { onceDone := true, sharedInstance := none }, []) := by
  have h := getShared_poisoned_after_panic [] 0 []
    (.panicMsg ("Dictionary file does not exist: " ++ "dict/jieba.dict.utf8"))
    rfl
  exact ⟨h.1, h.2.2 defaultDictPaths 0 []⟩

/-- Claim C8: whenever the engine-reported token records respect the engine
contract — byte offsets with `0 ≤ start < stop ≤ utf8-length of the text` and
non-decreasing starts — the `Word` sequence `Tokenize` returns satisfies
`0 ≤ Start < End ≤ utf8-length of the text` for every element, with
monotonically non-decreasing `Start` offsets, for every text, mode and HMM
flag. -/
theorem tokenize_offsets_in_bounds
    (engine : Option Nat → String → TokenizeMode → Bool → List CWord)
    (x : Jieba) (s : String) (mode : TokenizeMode) (hmm : Bool)
    (hval : ∀ rec ∈ engine x.jieba s mode hmm, ValidRec s rec)
    (hmono : (engine x.jieba s mode hmm).Chain' (fun a b => a.start ≤ b.start)) :
    (Tokenize engine x s mode hmm).1 =
      .ok (convertWords s (engine x.jieba s mode hmm)) ∧
    (∀ w ∈ convertWords s (engine x.jieba s mode hmm),
      0 ≤ w.Start ∧ w.Start < w.End ∧ w.End ≤ (s.utf8ByteSize : Int)) ∧
    (convertWords s (engine x.jieba s mode hmm)).Chain'
      (fun a b => a.Start ≤ b.Start) := by
  refine ⟨rfl, ?_, ?_⟩
  · intro w hw
    simp only [convertWords, List.mem_map] at hw
    obtain ⟨rec, hrec, rfl⟩ := hw
    exact hval rec hrec
  · simpa [convertWords, List.chain'_map] using hmono

/-- Claim C8 witness: a concrete engine output on the text "abc" whose records
respect the contract yields in-bounds, monotone `Word` offsets. -/
theorem tokenize_offsets_in_bounds_witness :
    (Tokenize (fun _ _ _ _ => [{ word := "ab", start := 0, stop := 2 },
        { word := "c", start := 2, stop := 3 }])
      { jieba := some 1, freed := false } "abc" TokenizeMode.DefaultMode true).1 =
      .ok (convertWords "abc" [{ word := "ab", start := 0, stop := 2 },
        { word := "c", start := 2, stop := 3 }]) ∧
    ∀ w ∈ convertWords "abc" [{ word := "ab", start := 0, stop := 2 },
        { word := "c", start := 2, stop := 3 }],
      0 ≤ w.Start ∧ w.Start < w.End ∧ w.End ≤ (("abc" : String).utf8ByteSize : Int) := by
  have h := tokenize_offsets_in_bounds
    (fun _ _ _ _ => [{ word := "ab", start := 0, stop := 2 },
      { word := "c", start := 2, stop := 3 }])
    { jieba := some 1, freed := false } "abc" TokenizeMode.DefaultMode true
    (by decide) (by simp [List.chain'_cons])
  exact ⟨h.1, h.2.1⟩
